import Mathlib

set_option maxRecDepth 100000

/-!
Shallow embedding of the KotobaTranscriber desktop shell
(src-tauri/src/tray.rs and src-tauri/src/commands.rs), together with
theorems checking the natural-language specification against it.
-/

namespace Tray

/-- Icon side length, the `SIZE` constant of `create_tray_icon_rgba`
(tray.rs line 74). -/
def SIZE : Nat := 32

/-- The disk test `dist < 14.0` of tray.rs lines 86-90.  In the source,
`cx = x as f32 - 15.5`, `cy = y as f32 - 15.5`, `dist = sqrt(cx*cx + cy*cy)`.
For `x, y < 32` the values `cx`, `cy` are half-integers with magnitude at most
15.5, so `cx`, `cy`, their squares and the sum are all exactly representable
in f32 (quarter-integers below 2^24); IEEE-754 sqrt is correctly rounded and
monotone and 14.0 is exact, hence `sqrt(cx*cx + cy*cy) < 14.0` holds exactly
when `cx*cx + cy*cy < 196`, i.e. when `(2x-31)^2 + (2y-31)^2 < 784`. -/
def in_disk (x y : Nat) : Bool :=
  let cx : Int := 2 * (x : Int) - 31
  let cy : Int := 2 * (y : Int) - 31
  decide (cx * cx + cy * cy < 784)

/-- The letterform ("K") test of tray.rs lines 97-102: a vertical bar
`9 <= x <= 12`, or, for `13 <= x <= 22`, two diagonal bands
`|ky - kx| <= 2` or `|ky + kx| <= 2` with `ky = y - 16`, `kx = x - 13`
(the Rust `i32` arithmetic never overflows at these magnitudes, so plain
`Int` is exact). -/
def in_k (x y : Nat) : Bool :=
  (decide (9 ≤ x) && decide (x ≤ 12))
    || (decide (13 ≤ x) && decide (x ≤ 22) &&
        (let ky : Int := (y : Int) - 16
         let kx : Int := (x : Int) - 13
         decide ((ky - kx).natAbs ≤ 2) || decide ((ky + kx).natAbs ≤ 2)))

/-- One iteration of the nested loop body of `create_tray_icon_rgba`
(tray.rs lines 82-109): writes the four bytes of pixel `(x, y)` into `data`
at offset `idx = (y * SIZE + x) * 4`.  Inside the disk the background
bytes `0xFF 0x98 0x00 255` are stored, then the letterform pixels are
overpainted `255 255 255` leaving alpha untouched; outside the disk the
buffer is left as is. -/
def write_pixel (data : List Nat) (x y : Nat) : List Nat :=
  let idx := (y * SIZE + x) * 4
  if in_disk x y then
    let d := (((data.set idx 0xFF).set (idx + 1) 0x98).set
        (idx + 2) 0x00).set (idx + 3) 255
    if in_k x y && decide (7 ≤ y) && decide (y ≤ 25) then
      ((d.set idx 255).set (idx + 1) 255).set (idx + 2) 255
    else d
  else data

/-- `create_tray_icon_rgba` of tray.rs lines 73-114: a buffer of
`SIZE * SIZE * 4` zero bytes, filled by the row-major double loop
`for y in 0..SIZE, for x in 0..SIZE`. -/
def create_tray_icon_rgba : List Nat :=
  (List.range SIZE).foldl
    (fun d y => (List.range SIZE).foldl (fun d x => write_pixel d x y) d)
    (List.replicate (SIZE * SIZE * 4) 0)

/-- The four bytes of the pixel starting at offset `i` of a buffer
(reads out of range give 0, matching the zero-initialised buffer). -/
def bytesAt (l : List Nat) (i : Nat) : List Nat :=
  [l.getD i 0, l.getD (i + 1) 0, l.getD (i + 2) 0, l.getD (i + 3) 0]

/-- Closed-form colour of a pixel inside the disk: opaque white when the
letterform condition of tray.rs lines 97-104 holds, the opaque background
colour 0xFF 0x98 0x00 otherwise. -/
def pixel_colored (x y : Nat) : List Nat :=
  if in_k x y && decide (7 ≤ y) && decide (y ≤ 25) then [255, 255, 255, 255]
  else [0xFF, 0x98, 0x00, 255]

/-- Closed form of the four bytes of pixel `(x, y)` in the finished buffer:
inside the disk the coloured bytes, outside the disk the initial zeros. -/
def pixel_bytes (x y : Nat) : List Nat :=
  if in_disk x y then pixel_colored x y else [0, 0, 0, 0]

/-- All pixel coordinates `(x, y)` in the order the double loop of
`create_tray_icon_rgba` visits them (y outer, x inner). -/
def all_pixels : List (Nat × Nat) :=
  (List.range 32).flatMap (fun y => (List.range 32).map (fun x => (x, y)))

/-- The letterform predicate exactly as the spec words it (spec.md
section 4.4, step 4): a vertical bar `9 <= x <= 12` OR two diagonal bands
`|ky - kx| <= 2` or `|ky + kx| <= 2` for `kx = x - 13`, `ky = y - 16`,
restricted to `13 <= x <= 22`. -/
def spec_letterform (x y : Nat) : Bool :=
  (decide (9 ≤ x) && decide (x ≤ 12))
    || (decide (13 ≤ x) && decide (x ≤ 22) &&
        (decide ((((y : Int) - 16) - ((x : Int) - 13)).natAbs ≤ 2)
          || decide ((((y : Int) - 16) + ((x : Int) - 13)).natAbs ≤ 2)))

/-- The per-pixel case analysis exactly as the spec words it (spec.md
section 4.4): if the Euclidean distance of `(x, y)` from `(15.5, 15.5)` is
at least 14.0, all four bytes are zero; otherwise the pixel is the opaque
background colour, except that letterform pixels within the vertical window
`7 <= y <= 25` are overpainted opaque white.  The distance condition
`(x - 15.5)^2 + (y - 15.5)^2 >= 196` is stated over `Int` after scaling by
4: `(2x - 31)^2 + (2y - 31)^2 >= 784`, which is exact. -/
def spec_pixel (x y : Nat) : List Nat :=
  let q : Int := (2 * (x : Int) - 31) * (2 * (x : Int) - 31)
    + (2 * (y : Int) - 31) * (2 * (y : Int) - 31)
  if 784 ≤ q then [0, 0, 0, 0]
  else if spec_letterform x y && decide (7 ≤ y) && decide (y ≤ 25) then
    [255, 255, 255, 255]
  else [0xFF, 0x98, 0x00, 255]

end Tray

namespace Commands

/-- Modelled from the spec: the Connection State Store (`AppState`, defined
outside the provided sources; commands.rs only calls its getters) is a record
of an optional unsigned 16-bit port and an optional string token, both
initially unset, each set at most once by the external sidecar monitor
(spec.md sections 3 and 4.1). -/
structure AppState where
  port : Option Nat
  token : Option String

/-- Modelled from the spec: both fields begin unset (spec.md section 3). -/
def AppState.init : AppState := ⟨none, none⟩

/-- Modelled from the spec: `get_port` returns the current optional port;
reads never fail (spec.md section 4.1). -/
def AppState.get_port (s : AppState) : Option Nat := s.port

/-- Modelled from the spec: `get_token` returns the current optional token;
reads never fail (spec.md section 4.1). -/
def AppState.get_token (s : AppState) : Option String := s.token

/-- Modelled from the spec: the single internal setter for the port field
(spec.md section 4.1). -/
def AppState.set_port (s : AppState) (p : Nat) : AppState := ⟨some p, s.token⟩

/-- Modelled from the spec: the single internal setter for the token field
(spec.md section 4.1). -/
def AppState.set_token (s : AppState) (t : String) : AppState := ⟨s.port, some t⟩

/-- `get_api_port` of commands.rs lines 11-13: `Ok(state.get_port())`. -/
def get_api_port (s : AppState) : Except String (Option Nat) :=
  .ok s.get_port

/-- `get_api_token` of commands.rs lines 18-20: `Ok(state.get_token())`. -/
def get_api_token (s : AppState) : Except String (Option String) :=
  .ok s.get_token

/-- `select_file` of commands.rs lines 25-43.  The native blocking picker is
an external capability; its outcome (a chosen path, or `none` on
cancellation) is the parameter `picked`, and the path-to-string conversion
is the identity on the string model of paths. -/
def select_file (picked : Option String) : Except String (Option String) :=
  match picked with
  | some path => .ok (some path)
  | none => .ok none

/-- `select_files` of commands.rs lines 48-66.  The multi-selection picker
outcome (an ordered list of paths, or `none` on cancellation) is the
parameter `picked`. -/
def select_files (picked : Option (List String)) : Except String (List String) :=
  match picked with
  | some paths => .ok (paths.map (fun f => f))
  | none => .ok []

/-- `select_folder` of commands.rs lines 71-77. -/
def select_folder (picked : Option String) : Except String (Option String) :=
  match picked with
  | some path => .ok (some path)
  | none => .ok none

end Commands

namespace Tray

/-- Ambient state of the host main window: visibility, minimisation and
focus, queried and commanded by the tray handlers but never cached
(spec.md section 3, WindowVisibility). -/
structure WindowState where
  visible : Bool
  minimized : Bool
  focused : Bool

/-- `window.show()` of the host capability: makes the window visible. -/
def show_window (w : WindowState) : WindowState :=
  ⟨true, w.minimized, w.focused⟩

/-- `window.unminimize()` of the host capability. -/
def unminimize (w : WindowState) : WindowState :=
  ⟨w.visible, false, w.focused⟩

/-- `window.set_focus()` of the host capability. -/
def set_focus (w : WindowState) : WindowState :=
  ⟨w.visible, w.minimized, true⟩

/-- `window.hide()` of the host capability: makes the window invisible. -/
def hide_window (w : WindowState) : WindowState :=
  ⟨false, w.minimized, w.focused⟩

/-- Rust `Result::unwrap_or` specialised to the visibility query result,
as used in tray.rs line 57: `window.is_visible().unwrap_or(false)`. -/
def unwrap_or (r : Except String Bool) (dflt : Bool) : Bool :=
  match r with
  | .ok b => b
  | .error _ => dflt

/-- The live `is_visible()` query performed at the moment of the event:
it reports the window's current visibility. -/
def live_query (w : WindowState) : Except String Bool :=
  .ok w.visible

/-- The menu "show" handler of tray.rs lines 32-38: if the main window is
located, show it, un-minimize it and focus it; otherwise do nothing.
`window` is the result of `app.get_webview_window("main")` at the event. -/
def on_menu_show (window : Option WindowState) : Option WindowState :=
  match window with
  | none => none
  | some w => some (set_focus (unminimize (show_window w)))

/-- The menu "hide" handler of tray.rs lines 39-43: if the main window is
located, hide it; otherwise do nothing. -/
def on_menu_hide (window : Option WindowState) : Option WindowState :=
  match window with
  | none => none
  | some w => some (hide_window w)

/-- The tray-icon left-click handler of tray.rs lines 49-66.  `window` is
the result of locating the main window at the event; `vis` is the result of
the `is_visible()` query made inside the handler.  If the query (defaulted
to `false` on error) reports visible, hide; else show, un-minimize, focus. -/
def on_left_click (window : Option WindowState) (vis : Except String Bool) :
    Option WindowState :=
  match window with
  | none => none
  | some w =>
    if unwrap_or vis false then some (hide_window w)
    else some (set_focus (unminimize (show_window w)))

end Tray

namespace Tray

/-- The loop body preserves the buffer length. -/
theorem write_pixel_length (d : List Nat) (x y : Nat) :
    (write_pixel d x y).length = d.length := by
  simp only [write_pixel]
  split
  · split <;> simp
  · rfl

/-- Folding the loop body over any pixel list preserves the buffer length. -/
theorem foldl_write_length (ps : List (Nat × Nat)) (d : List Nat) :
    (ps.foldl (fun d p => write_pixel d p.1 p.2) d).length = d.length := by
  induction ps generalizing d with
  | nil => rfl
  | cons p t ih =>
    simp only [List.foldl_cons]
    rw [ih, write_pixel_length]

/-- Frame property: writing pixel `(x, y)` leaves every byte outside its
four-byte slot untouched. -/
theorem write_pixel_getD_ne (d : List Nat) (x y j : Nat)
    (hj : j < (y * 32 + x) * 4 ∨ (y * 32 + x) * 4 + 4 ≤ j) :
    (write_pixel d x y).getD j 0 = d.getD j 0 := by
  simp only [write_pixel, SIZE]
  split
  · split
    · simp only [List.getD_eq_getElem?_getD]
      rw [List.getElem?_set_ne (by omega), List.getElem?_set_ne (by omega),
        List.getElem?_set_ne (by omega), List.getElem?_set_ne (by omega),
        List.getElem?_set_ne (by omega), List.getElem?_set_ne (by omega),
        List.getElem?_set_ne (by omega)]
    · simp only [List.getD_eq_getElem?_getD]
      rw [List.getElem?_set_ne (by omega), List.getElem?_set_ne (by omega),
        List.getElem?_set_ne (by omega), List.getElem?_set_ne (by omega)]
  · rfl

/-- Frame property at pixel granularity: writing a different pixel `(a, b)`
does not change the four bytes of pixel `(x, y)`. -/
theorem bytesAt_write_ne (d : List Nat) (a b x y : Nat)
    (hne : ¬(a = x ∧ b = y)) (ha : a < 32) (_hb : b < 32)
    (hx : x < 32) (_hy : y < 32) :
    bytesAt (write_pixel d a b) ((y * 32 + x) * 4) =
      bytesAt d ((y * 32 + x) * 4) := by
  simp only [bytesAt]
  rw [write_pixel_getD_ne d a b ((y * 32 + x) * 4) (by omega),
    write_pixel_getD_ne d a b ((y * 32 + x) * 4 + 1) (by omega),
    write_pixel_getD_ne d a b ((y * 32 + x) * 4 + 2) (by omega),
    write_pixel_getD_ne d a b ((y * 32 + x) * 4 + 3) (by omega)]

/-- Effect property: writing pixel `(x, y)` into a large enough buffer sets
its four bytes to the coloured bytes when inside the disk and leaves them
unchanged outside the disk. -/
theorem bytesAt_write (d : List Nat) (x y : Nat)
    (h : (y * 32 + x) * 4 + 4 ≤ d.length) :
    bytesAt (write_pixel d x y) ((y * 32 + x) * 4) =
      if in_disk x y then pixel_colored x y
      else bytesAt d ((y * 32 + x) * 4) := by
  simp only [write_pixel, SIZE, pixel_colored]
  by_cases hd : in_disk x y = true
  · rw [if_pos hd, if_pos hd]
    by_cases hk : (in_k x y && decide (7 ≤ y) && decide (y ≤ 25)) = true
    · rw [if_pos hk, if_pos hk]
      simp (disch := first | omega | (simp only [List.length_set]; omega)) only
        [bytesAt, List.getD_eq_getElem?_getD, List.getElem?_set_ne,
          List.getElem?_set_self, Option.getD_some]
    · rw [if_neg hk, if_neg hk]
      simp (disch := first | omega | (simp only [List.length_set]; omega)) only
        [bytesAt, List.getD_eq_getElem?_getD, List.getElem?_set_ne,
          List.getElem?_set_self, Option.getD_some]
  · rw [if_neg hd, if_neg hd]

/-- A nested row/column fold is the fold over the flattened coordinate
list. -/
theorem foldl_nested (w : List Nat → Nat → Nat → List Nat)
    (ys : List Nat) (d : List Nat) :
    ys.foldl (fun d y => (List.range 32).foldl (fun d x => w d x y) d) d =
      (ys.flatMap (fun y => (List.range 32).map (fun x => (x, y)))).foldl
        (fun d p => w d p.1 p.2) d := by
  induction ys generalizing d with
  | nil => rfl
  | cons y ys ih =>
    simp only [List.foldl_cons, List.flatMap_cons, List.foldl_append,
      List.foldl_map]
    exact ih _

/-- The rasterizer is the fold of the loop body over `all_pixels` started on
the zero buffer. -/
theorem create_eq_fold_pairs :
    create_tray_icon_rgba =
      all_pixels.foldl (fun d p => write_pixel d p.1 p.2)
        (List.replicate (32 * 32 * 4) 0) := by
  simp only [create_tray_icon_rgba, all_pixels, SIZE]
  exact foldl_nested write_pixel (List.range 32) _

/-- Membership in the coordinate list is exactly coordinate boundedness. -/
theorem mem_all_pixels (x y : Nat) :
    (x, y) ∈ all_pixels ↔ x < 32 ∧ y < 32 := by
  simp only [all_pixels, List.mem_flatMap, List.mem_map, List.mem_range,
    Prod.mk.injEq]
  constructor
  · rintro ⟨b, hb, a, ha, rfl, rfl⟩
    exact ⟨ha, hb⟩
  · rintro ⟨hx, hy⟩
    exact ⟨y, hy, x, hx, rfl, rfl⟩

/-- Every coordinate pair visited by the loops is bounded by 32. -/
theorem all_pixels_bounded : ∀ p ∈ all_pixels, p.1 < 32 ∧ p.2 < 32 := by
  intro p hp
  obtain ⟨a, b⟩ := p
  exact (mem_all_pixels a b).1 hp

/-- Reading the zero buffer gives zero. -/
theorem getD_replicate_zero (n i : Nat) :
    (List.replicate n (0 : Nat)).getD i 0 = 0 := by
  rw [List.getD_eq_getElem?_getD, List.getElem?_replicate]
  split <;> rfl

/-- The four bytes of any pixel of the zero buffer are zero. -/
theorem bytesAt_replicate (n i : Nat) :
    bytesAt (List.replicate n 0) i = [0, 0, 0, 0] := by
  simp only [bytesAt, getD_replicate_zero]

/-- Main fold invariant: after folding the loop body over a pixel list, the
four bytes of pixel `(x, y)` are the coloured bytes when the list visited
`(x, y)` and `(x, y)` is inside the disk, and are unchanged otherwise. -/
theorem foldl_write_bytesAt (x y : Nat) (hx : x < 32) (hy : y < 32) :
    ∀ ps : List (Nat × Nat), (∀ p ∈ ps, p.1 < 32 ∧ p.2 < 32) →
    ∀ d : List Nat, d.length = 4096 →
    bytesAt (ps.foldl (fun d p => write_pixel d p.1 p.2) d) ((y * 32 + x) * 4) =
      if (x, y) ∈ ps ∧ in_disk x y = true then pixel_colored x y
      else bytesAt d ((y * 32 + x) * 4) := by
  intro ps
  induction ps with
  | nil =>
    intro _ d _
    simp
  | cons p t ih =>
    intro hps d hd
    obtain ⟨a, b⟩ := p
    have hab := hps (a, b) (List.mem_cons_self _ _)
    have ht : ∀ q ∈ t, q.1 < 32 ∧ q.2 < 32 :=
      fun q hq => hps q (List.mem_cons_of_mem _ hq)
    have hlen : (write_pixel d a b).length = 4096 := by
      rw [write_pixel_length]; exact hd
    simp only [List.foldl_cons]
    rw [ih ht (write_pixel d a b) hlen]
    by_cases hpxy : a = x ∧ b = y
    · obtain ⟨rfl, rfl⟩ := hpxy
      rw [bytesAt_write d a b (by omega)]
      have hmemcons : (a, b) ∈ (a, b) :: t := List.mem_cons_self _ _
      split_ifs <;> tauto
    · have hiff : ((x, y) ∈ (a, b) :: t) ↔ ((x, y) ∈ t) := by
        rw [List.mem_cons]
        constructor
        · rintro (h | h)
          · rw [Prod.mk.injEq] at h
            exact absurd ⟨h.1.symm, h.2.symm⟩ hpxy
          · exact h
        · exact Or.inr
      rw [bytesAt_write_ne d a b x y hpxy hab.1 hab.2 hx hy]
      split_ifs <;> tauto

/-- Pointwise characterisation of the rasterizer output: the four bytes of
pixel `(x, y)` are exactly `pixel_bytes x y`. -/
theorem buffer_bytesAt (x y : Nat) (hx : x < 32) (hy : y < 32) :
    bytesAt create_tray_icon_rgba ((y * 32 + x) * 4) = pixel_bytes x y := by
  rw [create_eq_fold_pairs,
    foldl_write_bytesAt x y hx hy all_pixels all_pixels_bounded
      (List.replicate (32 * 32 * 4) 0) (by rw [List.length_replicate])]
  have hmem : (x, y) ∈ all_pixels := (mem_all_pixels x y).2 ⟨hx, hy⟩
  simp only [pixel_bytes]
  by_cases hdisk : in_disk x y = true
  · rw [if_pos ⟨hmem, hdisk⟩, if_pos hdisk]
  · rw [if_neg (by tauto), if_neg hdisk, bytesAt_replicate]

/-- The closed-form pixel bytes agree with the spec's case analysis on the
whole 32 by 32 grid. -/
theorem pixel_bytes_eq_spec :
    ∀ x, x < 32 → ∀ y, y < 32 → pixel_bytes x y = spec_pixel x y := by decide

/-- The closed-form pixel bytes have alpha 0 or 255, and alpha 0 only with
all colour channels 0, on the whole 32 by 32 grid. -/
theorem pixel_bytes_alpha :
    ∀ x, x < 32 → ∀ y, y < 32 →
      ((pixel_bytes x y).getD 3 0 = 0 ∨ (pixel_bytes x y).getD 3 0 = 255) ∧
      ((pixel_bytes x y).getD 3 0 = 0 →
        (pixel_bytes x y).getD 0 0 = 0 ∧ (pixel_bytes x y).getD 1 0 = 0 ∧
        (pixel_bytes x y).getD 2 0 = 0) := by decide

end Tray

/-- Claim C1 counterexample: pixel (15, 15) of the rasterizer output is NOT
the opaque background colour 0xFF 0x98 0x00 255.  With kx = 15 - 13 = 2 and
ky = 15 - 16 = -1 it satisfies |ky + kx| = 1 <= 2, so it lies inside the
letterform band and is overpainted white. -/
theorem C1_counterexample :
    Tray.bytesAt Tray.create_tray_icon_rgba ((15 * 32 + 15) * 4) ≠
      [0xFF, 0x98, 0x00, 255] := by
  rw [Tray.buffer_bytesAt 15 15 (by decide) (by decide)]
  decide

/-- Claim C1 (amended): pixel (15, 15) of the rasterizer output is opaque
white, because it lies inside the disk and inside the letterform band
(13 <= 15 <= 22, |ky + kx| = 1 <= 2, and 7 <= 15 <= 25). -/
theorem C1_amended_pixel_15_15_white :
    Tray.bytesAt Tray.create_tray_icon_rgba ((15 * 32 + 15) * 4) =
      [255, 255, 255, 255] := by
  rw [Tray.buffer_bytesAt 15 15 (by decide) (by decide)]
  decide

/-- Claim C2: for every pixel (x, y) with x, y < 32, the four bytes of the
rasterizer output at that pixel follow the spec's case analysis (transparent
outside the disk, opaque background inside, opaque white on the letterform
within the vertical window). -/
theorem C2_pixels_follow_spec :
    ∀ x, x < 32 → ∀ y, y < 32 →
      Tray.bytesAt Tray.create_tray_icon_rgba ((y * 32 + x) * 4) =
        Tray.spec_pixel x y := by
  intro x hx y hy
  rw [Tray.buffer_bytesAt x y hx hy]
  exact Tray.pixel_bytes_eq_spec x hx y hy

/-- Witness for C2 at the concrete pixel (0, 0), which is outside the disk
and hence fully transparent. -/
theorem C2_pixels_follow_spec_witness :
    Tray.bytesAt Tray.create_tray_icon_rgba ((0 * 32 + 0) * 4) =
      Tray.spec_pixel 0 0 :=
  C2_pixels_follow_spec 0 (by decide) 0 (by decide)

/-- Claim C3: before any write both store getters return ok of none; after
the single write of port 5173 and token "abc123" every subsequent read
returns ok of the written values (reads are pure, so the state, and with it
every later read, is unchanged). -/
theorem C3_connection_state :
    Commands.get_api_port Commands.AppState.init = Except.ok none ∧
    Commands.get_api_token Commands.AppState.init = Except.ok none ∧
    Commands.get_api_port
        ((Commands.AppState.init.set_port 5173).set_token "abc123") =
      Except.ok (some 5173) ∧
    Commands.get_api_token
        ((Commands.AppState.init.set_port 5173).set_token "abc123") =
      Except.ok (some "abc123") :=
  ⟨rfl, rfl, rfl, rfl⟩

/-- Claim C4: when the picker reports no selection, select_file and
select_folder return ok of none and select_files returns ok of the empty
list; none of the three takes the string-error branch on cancellation. -/
theorem C4_cancellation_not_error :
    Commands.select_file none = Except.ok none ∧
    Commands.select_files none = Except.ok [] ∧
    Commands.select_folder none = Except.ok none :=
  ⟨rfl, rfl, rfl⟩

/-- Claim C5: on a tray-icon left click the handler branches on the window
visibility queried live at the event: if the query reports visible the
window is hidden, otherwise it is shown, un-minimized and focused. -/
theorem C5_click_toggles (w : Tray.WindowState) :
    Tray.on_left_click (some w) (Tray.live_query w) =
      some (if w.visible then Tray.hide_window w
        else Tray.set_focus (Tray.unminimize (Tray.show_window w))) := by
  cases w with
  | mk v m f => cases v <;> rfl

/-- Witness for C5 at a concrete hidden, minimized, unfocused window: the
click shows, un-minimizes and focuses it. -/
theorem C5_click_toggles_witness :
    Tray.on_left_click (some ⟨false, true, false⟩)
        (Tray.live_query ⟨false, true, false⟩) =
      some ⟨true, false, true⟩ :=
  C5_click_toggles ⟨false, true, false⟩

/-- Claim C6: the rasterizer is deterministic: any two invocations produce
the same buffer, of 32 * 32 * 4 = 4096 bytes. -/
theorem C6_deterministic (b1 b2 : List Nat)
    (h1 : b1 = Tray.create_tray_icon_rgba)
    (h2 : b2 = Tray.create_tray_icon_rgba) :
    b1 = b2 ∧ b1.length = 32 * 32 * 4 := by
  refine ⟨h1.trans h2.symm, ?_⟩
  rw [h1, Tray.create_eq_fold_pairs, Tray.foldl_write_length,
    List.length_replicate]

/-- Witness for C6: two invocations of the rasterizer. -/
theorem C6_deterministic_witness :
    Tray.create_tray_icon_rgba = Tray.create_tray_icon_rgba ∧
      Tray.create_tray_icon_rgba.length = 32 * 32 * 4 :=
  C6_deterministic Tray.create_tray_icon_rgba Tray.create_tray_icon_rgba
    rfl rfl

/-- Claim C7: for every state of the Connection State Store, get_api_port
and get_api_token return ok of the current optional value, never the
string-error branch. -/
theorem C7_getters_never_error (s : Commands.AppState) :
    Commands.get_api_port s = Except.ok s.port ∧
    Commands.get_api_token s = Except.ok s.token :=
  ⟨rfl, rfl⟩

/-- Witness for C7 at the initial state. -/
theorem C7_getters_never_error_witness :
    Commands.get_api_port Commands.AppState.init = Except.ok none ∧
    Commands.get_api_token Commands.AppState.init = Except.ok none :=
  C7_getters_never_error Commands.AppState.init

/-- Claim C8: when the main window cannot be located, the show, hide and
left-click handlers are no-ops: the ambient window state (none) is returned
unchanged, and the handlers have no error channel to surface anything on. -/
theorem C8_missing_window_noop (vis : Except String Bool) :
    Tray.on_menu_show none = none ∧ Tray.on_menu_hide none = none ∧
    Tray.on_left_click none vis = none :=
  ⟨rfl, rfl, rfl⟩

/-- Witness for C8 with a concrete visibility query result. -/
theorem C8_missing_window_noop_witness :
    Tray.on_menu_show none = none ∧ Tray.on_menu_hide none = none ∧
    Tray.on_left_click none (Except.ok true) = none :=
  C8_missing_window_noop (Except.ok true)

/-- Claim C9: if the live visibility query fails, unwrap_or treats the
window as not visible, so the left-click handler takes the show branch:
show, un-minimize, focus. -/
theorem C9_query_failure_shows (w : Tray.WindowState) (e : String) :
    Tray.on_left_click (some w) (Except.error e) =
      some (Tray.set_focus (Tray.unminimize (Tray.show_window w))) :=
  rfl

/-- Witness for C9 at a concrete visible window and error message: the
window is shown (kept visible), un-minimized and focused, not hidden. -/
theorem C9_query_failure_shows_witness :
    Tray.on_left_click (some ⟨true, true, false⟩)
        (Except.error "platform failure") =
      some ⟨true, false, true⟩ :=
  C9_query_failure_shows ⟨true, true, false⟩ "platform failure"

/-- Claim C10: every pixel of the rasterizer output has alpha exactly 0 or
exactly 255, and every pixel whose alpha is 0 has all of R, G, B equal
to 0. -/
theorem C10_alpha_invariant (x y : Nat) (hx : x < 32) (hy : y < 32) :
    (((Tray.bytesAt Tray.create_tray_icon_rgba ((y * 32 + x) * 4)).getD 3 0 = 0 ∨
      (Tray.bytesAt Tray.create_tray_icon_rgba ((y * 32 + x) * 4)).getD 3 0 = 255) ∧
     ((Tray.bytesAt Tray.create_tray_icon_rgba ((y * 32 + x) * 4)).getD 3 0 = 0 →
       (Tray.bytesAt Tray.create_tray_icon_rgba ((y * 32 + x) * 4)).getD 0 0 = 0 ∧
       (Tray.bytesAt Tray.create_tray_icon_rgba ((y * 32 + x) * 4)).getD 1 0 = 0 ∧
       (Tray.bytesAt Tray.create_tray_icon_rgba ((y * 32 + x) * 4)).getD 2 0 = 0)) := by
  rw [Tray.buffer_bytesAt x y hx hy]
  exact Tray.pixel_bytes_alpha x hx y hy

/-- Witness for C10 at the corner pixel (0, 0), which is transparent. -/
theorem C10_alpha_invariant_witness :
    (((Tray.bytesAt Tray.create_tray_icon_rgba ((0 * 32 + 0) * 4)).getD 3 0 = 0 ∨
      (Tray.bytesAt Tray.create_tray_icon_rgba ((0 * 32 + 0) * 4)).getD 3 0 = 255) ∧
     ((Tray.bytesAt Tray.create_tray_icon_rgba ((0 * 32 + 0) * 4)).getD 3 0 = 0 →
       (Tray.bytesAt Tray.create_tray_icon_rgba ((0 * 32 + 0) * 4)).getD 0 0 = 0 ∧
       (Tray.bytesAt Tray.create_tray_icon_rgba ((0 * 32 + 0) * 4)).getD 1 0 = 0 ∧
       (Tray.bytesAt Tray.create_tray_icon_rgba ((0 * 32 + 0) * 4)).getD 2 0 = 0)) :=
  C10_alpha_invariant 0 0 (by decide) (by decide)
